import Mathlib

/-!
Verification of the alerting core of `alert_system.py` (class `AlertSystem`)
from the network-monitor repository.

Shallow embedding conventions:
* Python floats (metric readings, thresholds, `time.time()` timestamps) are
  modelled as rationals `ℚ`; every claim is about order comparisons on
  in-range percentage values, for which `ℚ` has the same semantics.
* The Python dict `self.last_alert_time` is an insertion-ordered association
  list `List (String × ℚ)`; dict assignment is `setKey`, dict lookup is
  `List.lookup`.
* External effects (the metric probe, `systemctl` probe, SMTP session, HTTP
  POST, log-file write, wall clock, formatted timestamp) are injected as
  parameters; each check function returns its boolean result, the new object
  state, and a trace of the dispatch actions it performed (`Event`).
* Python string formatting of numbers (`:.1f`) is abstracted by `toString`
  on `ℚ`; no claim depends on the rendered digits.
-/

/-- One entry of `self.alert_history` as built in `log_alert`
(`alert_system.py` lines 145–150): a dict with keys
timestamp/type/message/level. -/
structure AlertRecord where
  timestamp : String
  type : String
  message : String
  level : String
deriving DecidableEq, Repr

/-- The mutable state of an `AlertSystem` object that the claims concern:
`self.alert_history` and `self.last_alert_time` (lines 34–35). -/
structure AlertState where
  alert_history : List AlertRecord
  last_alert_time : List (String × ℚ)
deriving DecidableEq, Repr

/-- The configuration fields of `self.config` that the check functions read
(defaults from `load_config`, lines 48–72).  `alert_cooldown` is the single
global window read by `can_send_alert` via
`self.config.get('alert_cooldown', 300)`. -/
structure Thresholds where
  cpu : ℚ
  memory : ℚ
  disk : ℚ
  swap : ℚ
deriving DecidableEq, Repr

structure Config where
  thresholds : Thresholds
  check_interval : ℤ
  alert_cooldown : ℚ
  email_enabled : Bool
  webhook_enabled : Bool
  console_alerts : Bool
deriving DecidableEq, Repr

/-- Python dict assignment `d[k] = v` on an insertion-ordered association
list: overwrite the existing binding in place, or append a new one. -/
def setKey (m : List (String × ℚ)) (k : String) (v : ℚ) : List (String × ℚ) :=
  match m with
  | [] => [(k, v)]
  | (k0, v0) :: rest => if k0 = k then (k, v) :: rest else (k0, v0) :: setKey rest k v

/-- Outcome of the SMTP session attempted inside `send_email_alert`
(lines 185–229): success, or one of the exception classes the claim names
(connection, authentication, send). -/
inductive EmailOutcome where
  | success
  | connectionError
  | authError
  | sendError
deriving DecidableEq, Repr

/-- The body of the `try:` block of `send_email_alert`: any of the SMTP
steps may raise; this is the raised-or-not view of the injected outcome. -/
def emailTry (o : EmailOutcome) : Except String Unit :=
  match o with
  | EmailOutcome.success => Except.ok ()
  | EmailOutcome.connectionError => Except.error "connection error"
  | EmailOutcome.authError => Except.error "authentication error"
  | EmailOutcome.sendError => Except.error "send error"

/-- Outcome of the HTTP POST attempted inside `send_webhook_alert`
(lines 241–271): HTTP 200, a non-200 status, a request exception, or the
`requests` module being unavailable (`ImportError`). -/
inductive WebhookOutcome where
  | ok200
  | non200
  | requestError
  | importError
deriving DecidableEq, Repr

/-- Observable dispatch actions of one check, in program order.
`record r fileOk` is one `log_alert` call: `r` is the history entry it
appends, `fileOk` tells whether the log-file write succeeded (the write is
inside `try/except`, lines 138–142). -/
inductive Event where
  | console (msg : String)
  | record (r : AlertRecord) (fileOk : Bool)
  | emailAttempt (subject : String) (o : EmailOutcome)
  | webhookAttempt (msg : String) (o : WebhookOutcome)
deriving DecidableEq, Repr

/-- Embedding of `log_alert` (lines 126–154): try the file append (failure is caught and
only printed), append the record to the in-memory history, and trim the
history to its last 100 entries (`self.alert_history[-100:]`). -/
def log_alert (st : AlertState) (ts alert_type message level : String)
    (fileOk : Bool) : AlertState × List Event :=
  let r : AlertRecord := ⟨ts, alert_type, message, level⟩
  let hist := st.alert_history ++ [r]
  let hist := if hist.length > 100 then hist.drop (hist.length - 100) else hist
  ({ st with alert_history := hist }, [Event.record r fileOk])

/-- Embedding of `can_send_alert` (lines 156–172): true when no timestamp is recorded for
`alert_type`, or when `now - last_alert_time[alert_type] >= cooldown`. -/
def can_send_alert (cfg : Config) (st : AlertState) (alert_type : String)
    (now : ℚ) : Bool :=
  match List.lookup alert_type st.last_alert_time with
  | none => true
  | some t => decide (now - t ≥ cfg.alert_cooldown)

/-- Embedding of `send_email_alert` (lines 174–229): no-op returning `False` when email
is disabled; otherwise the SMTP session runs inside `try/except`: on success
it logs an INFO entry and returns `True`, on any exception it logs an ERROR
entry and returns `False` — the exception never escapes. -/
def send_email_alert (cfg : Config) (st : AlertState) (subject : String)
    (eo : EmailOutcome) (ts : String) (fileOk : Bool) :
    Bool × AlertState × List Event :=
  if cfg.email_enabled = false then (false, st, [])
  else
    match emailTry eo with
    | Except.ok _ =>
        let p := log_alert st ts "EMAIL" ("Email envoyé: " ++ subject) "INFO" fileOk
        (true, p.1, Event.emailAttempt subject eo :: p.2)
    | Except.error e =>
        let p := log_alert st ts "EMAIL" ("Erreur envoi: " ++ e) "ERROR" fileOk
        (false, p.1, Event.emailAttempt subject eo :: p.2)

/-- Embedding of `send_webhook_alert` (lines 231–271): no-op returning `False` when the
webhook is disabled; an HTTP 200 logs an INFO entry and returns `True`; a
non-200 status, request exception or missing `requests` module returns
`False` without raising. -/
def send_webhook_alert (cfg : Config) (st : AlertState) (message : String)
    (wo : WebhookOutcome) (ts : String) (fileOk : Bool) :
    Bool × AlertState × List Event :=
  if cfg.webhook_enabled = false then (false, st, [])
  else
    match wo with
    | WebhookOutcome.ok200 =>
        let p := log_alert st ts "WEBHOOK" "Webhook envoyé" "INFO" fileOk
        (true, p.1, Event.webhookAttempt message wo :: p.2)
    | _ => (false, st, [Event.webhookAttempt message wo])

/-- The alert message strings built in the check functions (the `:.1f`
float rendering is abstracted by `toString`). -/
def cpu_message (r t : ℚ) : String :=
  "CPU élevé: " ++ toString r ++ "% (seuil: " ++ toString t ++ "%)"

def memory_message (r t : ℚ) : String :=
  "Mémoire élevée: " ++ toString r ++ "% (seuil: " ++ toString t ++ "%)"

def disk_message (r t : ℚ) : String :=
  "Disque plein: " ++ toString r ++ "% (seuil: " ++ toString t ++ "%)"

def swap_message (r t : ℚ) : String :=
  "SWAP élevé: " ++ toString r ++ "% (seuil: " ++ toString t ++ "%)"

def service_message (name : String) : String :=
  "Service " ++ name ++ " est arrêté"

/-- Embedding of `check_cpu` (lines 273–300).  The CPU reading (`psutil.cpu_percent`),
the wall clock (`time.time()`), the formatted timestamp and the channel
outcomes are injected.  Fires only when `cpu_percent > threshold` (strict)
and the cooldown permits; on firing it prints, logs a WARNING entry, runs
the enabled channels, and records `last_alert_time['CPU'] = now`. -/
def check_cpu (cfg : Config) (st : AlertState) (cpu_percent now : ℚ)
    (ts : String) (eo : EmailOutcome) (wo : WebhookOutcome) (fileOk : Bool) :
    Bool × AlertState × List Event :=
  let threshold := cfg.thresholds.cpu
  if cpu_percent > threshold then
    if can_send_alert cfg st "CPU" now then
      let message := cpu_message cpu_percent threshold
      let evs0 := if cfg.console_alerts then [Event.console message] else []
      let p1 := log_alert st ts "CPU" message "WARNING" fileOk
      let p2 := if cfg.email_enabled then
          (send_email_alert cfg p1.1 "CPU élevé" eo ts fileOk).2
        else (p1.1, [])
      let p3 := if cfg.webhook_enabled then
          (send_webhook_alert cfg p2.1 message wo ts fileOk).2
        else (p2.1, [])
      let st4 := { p3.1 with last_alert_time := setKey p3.1.last_alert_time "CPU" now }
      (true, st4, evs0 ++ p1.2 ++ p2.2 ++ p3.2)
    else (false, st, [])
  else (false, st, [])

/-- Embedding of `check_memory` (lines 302–325), same shape as `check_cpu` with the
memory threshold, kind `MEMORY` and severity WARNING. -/
def check_memory (cfg : Config) (st : AlertState) (mem_percent now : ℚ)
    (ts : String) (eo : EmailOutcome) (wo : WebhookOutcome) (fileOk : Bool) :
    Bool × AlertState × List Event :=
  let threshold := cfg.thresholds.memory
  if mem_percent > threshold then
    if can_send_alert cfg st "MEMORY" now then
      let message := memory_message mem_percent threshold
      let evs0 := if cfg.console_alerts then [Event.console message] else []
      let p1 := log_alert st ts "MEMORY" message "WARNING" fileOk
      let p2 := if cfg.email_enabled then
          (send_email_alert cfg p1.1 "Mémoire élevée" eo ts fileOk).2
        else (p1.1, [])
      let p3 := if cfg.webhook_enabled then
          (send_webhook_alert cfg p2.1 message wo ts fileOk).2
        else (p2.1, [])
      let st4 := { p3.1 with last_alert_time := setKey p3.1.last_alert_time "MEMORY" now }
      (true, st4, evs0 ++ p1.2 ++ p2.2 ++ p3.2)
    else (false, st, [])
  else (false, st, [])

/-- Embedding of `check_disk` (lines 327–350), same shape with the disk threshold, kind
`DISK` and severity CRITICAL. -/
def check_disk (cfg : Config) (st : AlertState) (disk_percent now : ℚ)
    (ts : String) (eo : EmailOutcome) (wo : WebhookOutcome) (fileOk : Bool) :
    Bool × AlertState × List Event :=
  let threshold := cfg.thresholds.disk
  if disk_percent > threshold then
    if can_send_alert cfg st "DISK" now then
      let message := disk_message disk_percent threshold
      let evs0 := if cfg.console_alerts then [Event.console message] else []
      let p1 := log_alert st ts "DISK" message "CRITICAL" fileOk
      let p2 := if cfg.email_enabled then
          (send_email_alert cfg p1.1 "Disque plein" eo ts fileOk).2
        else (p1.1, [])
      let p3 := if cfg.webhook_enabled then
          (send_webhook_alert cfg p2.1 message wo ts fileOk).2
        else (p2.1, [])
      let st4 := { p3.1 with last_alert_time := setKey p3.1.last_alert_time "DISK" now }
      (true, st4, evs0 ++ p1.2 ++ p2.2 ++ p3.2)
    else (false, st, [])
  else (false, st, [])

/-- Embedding of `check_swap` (lines 352–379): returns `False` immediately when
`swap.total == 0`; otherwise same shape with the swap threshold, kind
`SWAP` and severity WARNING. -/
def check_swap (cfg : Config) (st : AlertState) (swap_total : ℤ)
    (swap_percent now : ℚ) (ts : String) (eo : EmailOutcome)
    (wo : WebhookOutcome) (fileOk : Bool) : Bool × AlertState × List Event :=
  if swap_total = 0 then (false, st, [])
  else
    let threshold := cfg.thresholds.swap
    if swap_percent > threshold then
      if can_send_alert cfg st "SWAP" now then
        let message := swap_message swap_percent threshold
        let evs0 := if cfg.console_alerts then [Event.console message] else []
        let p1 := log_alert st ts "SWAP" message "WARNING" fileOk
        let p2 := if cfg.email_enabled then
            (send_email_alert cfg p1.1 "SWAP élevé" eo ts fileOk).2
          else (p1.1, [])
        let p3 := if cfg.webhook_enabled then
            (send_webhook_alert cfg p2.1 message wo ts fileOk).2
          else (p2.1, [])
        let st4 := { p3.1 with last_alert_time := setKey p3.1.last_alert_time "SWAP" now }
        (true, st4, evs0 ++ p1.2 ++ p2.2 ++ p3.2)
      else (false, st, [])
    else (false, st, [])

/-- Python `str.strip()` with no argument: remove leading and trailing
whitespace, modelled on the character list so that it evaluates in the
kernel (`String.trim` does not reduce there). -/
def pyStrip (s : String) : String :=
  ⟨((s.data.dropWhile Char.isWhitespace).reverse.dropWhile Char.isWhitespace).reverse⟩

/-- Embedding of `check_service_down` (lines 381–419).  `probe` is the outcome of the
`subprocess.run(["systemctl", "is-active", service_name], ...)` call:
`none` when it raises (the exception is caught and only printed), otherwise
`some stdout`.  Healthy means `stdout.strip() == "active"` (strip modelled
by `pyStrip`); any other
output alerts with history kind `SERVICE`, severity CRITICAL, and cooldown
key `SERVICE_<service_name>`. -/
def check_service_down (cfg : Config) (st : AlertState) (service_name : String)
    (probe : Option String) (now : ℚ) (ts : String) (eo : EmailOutcome)
    (wo : WebhookOutcome) (fileOk : Bool) : Bool × AlertState × List Event :=
  match probe with
  | none => (false, st, [])
  | some out =>
      let is_active := pyStrip out == "active"
      if is_active then (false, st, [])
      else
        if can_send_alert cfg st ("SERVICE_" ++ service_name) now then
          let message := service_message service_name
          let evs0 := if cfg.console_alerts then [Event.console message] else []
          let p1 := log_alert st ts "SERVICE" message "CRITICAL" fileOk
          let p2 := if cfg.email_enabled then
              (send_email_alert cfg p1.1 ("Service " ++ service_name ++ " arrêté") eo ts fileOk).2
            else (p1.1, [])
          let p3 := if cfg.webhook_enabled then
              (send_webhook_alert cfg p2.1 message wo ts fileOk).2
            else (p2.1, [])
          let st4 := { p3.1 with
            last_alert_time := setKey p3.1.last_alert_time ("SERVICE_" ++ service_name) now }
          (true, st4, evs0 ++ p1.2 ++ p2.2 ++ p3.2)
        else (false, st, [])

/-! Helper lemmas about the embedding. -/

/-- Writing one key with `setKey` does not disturb `List.lookup` at another key. -/
theorem lookup_setKey_ne (m : List (String × ℚ)) (k k2 : String) (v : ℚ)
    (h : k ≠ k2) : List.lookup k (setKey m k2 v) = List.lookup k m := by
  have hb : (k == k2) = false := beq_eq_false_iff_ne.mpr h
  induction m with
  | nil => simp [setKey, List.lookup, hb]
  | cons kv rest ih =>
      obtain ⟨k0, v0⟩ := kv
      by_cases hk : k0 = k2
      · subst hk
        simp [setKey, List.lookup, hb]
      · simp [setKey, hk, List.lookup, ih]

/-- Lemma: `log_alert` changes only the history, never the cooldown map. -/
theorem log_alert_keeps_last_alert_time (st : AlertState)
    (ts ty msg lvl : String) (fo : Bool) :
    (log_alert st ts ty msg lvl fo).1.last_alert_time = st.last_alert_time := rfl

/-- Lemma: `send_email_alert` changes only the history, never the cooldown map. -/
theorem send_email_alert_keeps_last_alert_time (cfg : Config) (st : AlertState)
    (subject : String) (eo : EmailOutcome) (ts : String) (fo : Bool) :
    (send_email_alert cfg st subject eo ts fo).2.1.last_alert_time
      = st.last_alert_time := by
  unfold send_email_alert
  split
  · rfl
  · cases emailTry eo <;> rfl

/-- Lemma: `send_webhook_alert` changes only the history, never the cooldown map. -/
theorem send_webhook_alert_keeps_last_alert_time (cfg : Config) (st : AlertState)
    (message : String) (wo : WebhookOutcome) (ts : String) (fo : Bool) :
    (send_webhook_alert cfg st message wo ts fo).2.1.last_alert_time
      = st.last_alert_time := by
  unfold send_webhook_alert
  split
  · rfl
  · cases wo <;> rfl

/-! Concrete fixtures used by the witness theorems: the default
configuration of `load_config`, a variant with every channel enabled, a
fresh state, and a state that recorded a CPU firing at time 0. -/

def cfg0 : Config :=
  { thresholds := ⟨80, 85, 90, 80⟩, check_interval := 60, alert_cooldown := 300,
    email_enabled := false, webhook_enabled := false, console_alerts := true }

def cfgAll : Config :=
  { thresholds := ⟨80, 85, 90, 80⟩, check_interval := 60, alert_cooldown := 300,
    email_enabled := true, webhook_enabled := true, console_alerts := true }

def st0 : AlertState := ⟨[], []⟩

def stC : AlertState := ⟨[], [("CPU", 0)]⟩

/-- C1: `can_send_alert(kind, now)` is true iff no prior timestamp is
recorded for `kind` or `now - last_fired[kind] ≥ cooldown_window` (so the
boundary `now - last_fired[kind] = cooldown_window` permits firing); the
same global `cfg.alert_cooldown` is the window for every kind, and
recording a firing time for a different kind `k2 ≠ k` leaves
`can_send_alert` for `k` unchanged. -/
theorem can_send_alert_spec (cfg : Config) (st : AlertState) (k k2 : String)
    (now t2 : ℚ) (hk : k ≠ k2) :
    (can_send_alert cfg st k now = true ↔
      List.lookup k st.last_alert_time = none ∨
      ∃ t0, List.lookup k st.last_alert_time = some t0 ∧
        now - t0 ≥ cfg.alert_cooldown)
    ∧ can_send_alert cfg
        { st with last_alert_time := setKey st.last_alert_time k2 t2 } k now
      = can_send_alert cfg st k now := by
  constructor
  · unfold can_send_alert
    cases h : List.lookup k st.last_alert_time with
    | none => simp
    | some t => simp [h]
  · unfold can_send_alert
    simp only [lookup_setKey_ne st.last_alert_time k k2 t2 hk]

/-- Witness for C1 at a concrete boundary input: with the default 300 s
window and `last_fired[CPU] = 0`, the check at `now = 300` (exactly the
window) permits firing, via `can_send_alert_spec` with kinds CPU ≠ MEMORY. -/
theorem can_send_alert_spec_witness : can_send_alert cfg0 stC "CPU" 300 = true :=
  (can_send_alert_spec cfg0 stC "CPU" "MEMORY" 300 7 (by decide)).1.mpr
    (Or.inr ⟨0, by simp [stC], by simp [cfg0]⟩)

/-- One channel step of a check: the email branch never touches the
cooldown map. -/
theorem email_step_keeps_last_alert_time (cfg : Config) (stx : AlertState)
    (subject : String) (eo : EmailOutcome) (ts : String) (fo : Bool) :
    ((if cfg.email_enabled then (send_email_alert cfg stx subject eo ts fo).2
      else (stx, ([] : List Event))).1).last_alert_time = stx.last_alert_time := by
  split
  · exact send_email_alert_keeps_last_alert_time cfg stx subject eo ts fo
  · rfl

/-- One channel step of a check: the webhook branch never touches the
cooldown map. -/
theorem webhook_step_keeps_last_alert_time (cfg : Config) (stx : AlertState)
    (message : String) (wo : WebhookOutcome) (ts : String) (fo : Bool) :
    ((if cfg.webhook_enabled then (send_webhook_alert cfg stx message wo ts fo).2
      else (stx, ([] : List Event))).1).last_alert_time = stx.last_alert_time := by
  split
  · exact send_webhook_alert_keeps_last_alert_time cfg stx message wo ts fo
  · rfl

/-- C2: `check_cpu` fires iff the reading strictly exceeds the threshold
(and the cooldown permits); a reading equal to the threshold triggers
nothing at all: the check returns `False`, the state is unchanged and no
channel runs. -/
theorem check_cpu_strict_threshold (cfg : Config) (st : AlertState)
    (r now : ℚ) (ts : String) (eo : EmailOutcome) (wo : WebhookOutcome)
    (fileOk : Bool) :
    ((check_cpu cfg st r now ts eo wo fileOk).1 = true ↔
      r > cfg.thresholds.cpu ∧ can_send_alert cfg st "CPU" now = true)
    ∧ (r = cfg.thresholds.cpu →
        check_cpu cfg st r now ts eo wo fileOk = (false, st, [])) := by
  constructor
  · by_cases h1 : r > cfg.thresholds.cpu
    · by_cases h2 : can_send_alert cfg st "CPU" now = true
      · simp [check_cpu, h1, h2]
      · simp [check_cpu, h1, h2]
    · simp [check_cpu, h1]
  · intro h
    simp [check_cpu, h]

/-- Witness for C2 at the boundary input: with the default threshold 80,
a reading of exactly 80 triggers nothing. -/
theorem check_cpu_strict_threshold_witness :
    check_cpu cfg0 st0 80 0 "ts" EmailOutcome.success WebhookOutcome.ok200 true
      = (false, st0, []) :=
  (check_cpu_strict_threshold cfg0 st0 80 0 "ts" EmailOutcome.success
    WebhookOutcome.ok200 true).2 rfl

/-- C3: a CPU check suppressed by the cooldown returns `False` with the
whole state (history and `last_alert_time`) unchanged and no dispatch
action — in particular the cooldown query resets nothing; the timestamp
map is rewritten (at key CPU, to the firing time) exactly when the alert
is dispatched, and any non-firing check leaves the state untouched. -/
theorem check_cpu_frame (cfg : Config) (st : AlertState) (r now : ℚ)
    (ts : String) (eo : EmailOutcome) (wo : WebhookOutcome) (fileOk : Bool) :
    (can_send_alert cfg st "CPU" now = false →
       check_cpu cfg st r now ts eo wo fileOk = (false, st, []))
    ∧ ((check_cpu cfg st r now ts eo wo fileOk).1 = true →
       (check_cpu cfg st r now ts eo wo fileOk).2.1.last_alert_time
         = setKey st.last_alert_time "CPU" now)
    ∧ ((check_cpu cfg st r now ts eo wo fileOk).1 = false →
       (check_cpu cfg st r now ts eo wo fileOk).2.1 = st) := by
  refine ⟨?_, ?_, ?_⟩
  · intro h
    by_cases h1 : r > cfg.thresholds.cpu
    · simp [check_cpu, h1, h]
    · simp [check_cpu, h1]
  · intro h
    by_cases h1 : r > cfg.thresholds.cpu
    · by_cases h2 : can_send_alert cfg st "CPU" now = true
      · simp only [check_cpu, h1, h2, if_true, if_pos]
        rw [webhook_step_keeps_last_alert_time, email_step_keeps_last_alert_time,
          log_alert_keeps_last_alert_time]
      · simp [check_cpu, h1, h2] at h
    · simp [check_cpu, h1] at h
  · intro h
    by_cases h1 : r > cfg.thresholds.cpu
    · by_cases h2 : can_send_alert cfg st "CPU" now = true
      · simp [check_cpu, h1, h2] at h
      · simp [check_cpu, h1, h2]
    · simp [check_cpu, h1]

/-- Witness for C3 at a concrete suppressed input: `last_fired[CPU] = 0`,
window 300, a reading of 90 at `now = 100` is suppressed and changes
nothing. -/
theorem check_cpu_frame_witness :
    check_cpu cfg0 stC 90 100 "ts" EmailOutcome.success WebhookOutcome.ok200 true
      = (false, stC, []) :=
  (check_cpu_frame cfg0 stC 90 100 "ts" EmailOutcome.success
    WebhookOutcome.ok200 true).1
    (by norm_num [can_send_alert, stC, cfg0, List.lookup])

/-- C4: after any `log_alert` the in-memory history holds at most 100
entries; recording into a full history of 100 entries evicts exactly the
oldest entry and keeps the surviving 99 in order, with the new record
appended last; below capacity the record is appended with nothing evicted. -/
theorem log_alert_history_bound (st : AlertState) (ts ty msg lvl : String)
    (fo : Bool) :
    (log_alert st ts ty msg lvl fo).1.alert_history.length ≤ 100
    ∧ (st.alert_history.length = 100 →
        (log_alert st ts ty msg lvl fo).1.alert_history
          = st.alert_history.drop 1 ++ [⟨ts, ty, msg, lvl⟩])
    ∧ (st.alert_history.length < 100 →
        (log_alert st ts ty msg lvl fo).1.alert_history
          = st.alert_history ++ [⟨ts, ty, msg, lvl⟩]) := by
  refine ⟨?_, ?_, ?_⟩
  · unfold log_alert
    dsimp only
    split
    · simp only [List.length_drop, List.length_append, List.length_cons,
        List.length_nil]
      omega
    · simp only [List.length_append, List.length_cons, List.length_nil] at *
      omega
  · intro h
    unfold log_alert
    dsimp only
    have hgt : (st.alert_history ++ [(⟨ts, ty, msg, lvl⟩ : AlertRecord)]).length > 100 := by
      simp [h]
    rw [if_pos hgt]
    simp [List.drop_append_eq_append_drop, h]
  · intro h
    unfold log_alert
    dsimp only
    have hle : ¬ (st.alert_history ++ [(⟨ts, ty, msg, lvl⟩ : AlertRecord)]).length > 100 := by
      simp; omega
    rw [if_neg hle]

/-- Witness for C4 at a concrete input: recording into an empty history
appends the entry. -/
theorem log_alert_history_bound_witness :
    (log_alert st0 "ts" "CPU" "m" "WARNING" true).1.alert_history
      = [] ++ [⟨"ts", "CPU", "m", "WARNING"⟩] :=
  (log_alert_history_bound st0 "ts" "CPU" "m" "WARNING" true).2.2
    (by simp [st0])

/-- C6: when total swap capacity is zero, `check_swap` returns `False`
immediately for every reading: no alert, no history entry, unchanged
cooldown state, no dispatch action. -/
theorem check_swap_zero_total (cfg : Config) (st : AlertState)
    (swap_percent now : ℚ) (ts : String) (eo : EmailOutcome)
    (wo : WebhookOutcome) (fileOk : Bool) :
    check_swap cfg st 0 swap_percent now ts eo wo fileOk = (false, st, []) := by
  simp [check_swap]

/-- C10: the in-memory history update of `log_alert` is independent of
whether the log-file append succeeded (the write failure is caught), and
the new record is always the last history entry after the call. -/
theorem log_alert_file_failure_keeps_history (st : AlertState)
    (ts ty msg lvl : String) :
    (log_alert st ts ty msg lvl false).1 = (log_alert st ts ty msg lvl true).1
    ∧ (log_alert st ts ty msg lvl false).1.alert_history.getLast?
        = some ⟨ts, ty, msg, lvl⟩ := by
  constructor
  · rfl
  · unfold log_alert
    dsimp only
    split
    · next hgt =>
        rw [List.drop_append_eq_append_drop]
        have h1 : (st.alert_history ++ [(⟨ts, ty, msg, lvl⟩ : AlertRecord)]).length
            - 100 - st.alert_history.length = 0 := by
          simp only [List.length_append, List.length_cons, List.length_nil]
          omega
        rw [h1]
        simp
    · simp

/-- The webhook-channel actions of a dispatch trace. -/
def webhookEvents (evs : List Event) : List Event :=
  evs.filter (fun e => match e with
    | Event.webhookAttempt _ _ => true
    | _ => false)

/-- C5: with every channel enabled and a permitted CPU alert, any email
failure is consumed inside `send_email_alert` (which returns `False`
rather than raising), the CPU log write still happens with the outcome
given by the file write alone, and the webhook delivery still executes
with its own outcome: the webhook actions of the trace are exactly one
attempt with outcome `wo`, an expression independent of the email
outcome. -/
theorem email_failure_isolated (cfg : Config) (st : AlertState) (r now : ℚ)
    (ts : String) (wo : WebhookOutcome) (fileOk : Bool) (eo : EmailOutcome)
    (e : String) (hfail : emailTry eo = Except.error e)
    (he : cfg.email_enabled = true) (hw : cfg.webhook_enabled = true)
    (h1 : r > cfg.thresholds.cpu)
    (h2 : can_send_alert cfg st "CPU" now = true) :
    (send_email_alert cfg st "CPU élevé" eo ts fileOk).1 = false
    ∧ (check_cpu cfg st r now ts eo wo fileOk).1 = true
    ∧ Event.record ⟨ts, "CPU", cpu_message r cfg.thresholds.cpu, "WARNING"⟩ fileOk
        ∈ (check_cpu cfg st r now ts eo wo fileOk).2.2
    ∧ webhookEvents (check_cpu cfg st r now ts eo wo fileOk).2.2
        = [Event.webhookAttempt (cpu_message r cfg.thresholds.cpu) wo] := by
  refine ⟨?_, ?_, ?_, ?_⟩
  · simp [send_email_alert, he, hfail]
  · simp [check_cpu, h1, h2]
  · by_cases hc : cfg.console_alerts <;>
      simp [check_cpu, h1, h2, hc, log_alert]
  · cases wo <;>
      by_cases hc : cfg.console_alerts <;>
        simp [check_cpu, h1, h2, he, hw, hc, send_email_alert, hfail,
          send_webhook_alert, log_alert, webhookEvents]

/-- Witness for C5 at a concrete input: all channels enabled, reading 90
over threshold 80, fresh cooldown state, SMTP connection failure. -/
theorem email_failure_isolated_witness :
    (send_email_alert cfgAll st0 "CPU élevé" EmailOutcome.connectionError "t" true).1 = false
    ∧ (check_cpu cfgAll st0 90 0 "t" EmailOutcome.connectionError
        WebhookOutcome.ok200 true).1 = true
    ∧ webhookEvents (check_cpu cfgAll st0 90 0 "t" EmailOutcome.connectionError
        WebhookOutcome.ok200 true).2.2
        = [Event.webhookAttempt (cpu_message 90 cfgAll.thresholds.cpu)
            WebhookOutcome.ok200] := by
  have h := email_failure_isolated cfgAll st0 90 0 "t" WebhookOutcome.ok200 true
    EmailOutcome.connectionError "connection error" rfl rfl rfl
    (by norm_num [cfgAll]) rfl
  exact ⟨h.1, h.2.1, h.2.2.2⟩

/-- C7 (amended): the service check treats exactly the stripped probe
output `"active"` as healthy and fires for any other output (including
`"inactive"` and `"unknown"`) when the cooldown permits; the resulting
history record has kind `SERVICE` (not service-qualified) and severity
CRITICAL, while the service-qualified key `SERVICE_<name>` is what the
cooldown state records. -/
theorem check_service_down_spec (cfg : Config) (st : AlertState)
    (name out : String) (now : ℚ) (ts : String) (eo : EmailOutcome)
    (wo : WebhookOutcome) (fileOk : Bool) :
    ((check_service_down cfg st name (some out) now ts eo wo fileOk).1 = true ↔
      (pyStrip out == "active") = false
      ∧ can_send_alert cfg st ("SERVICE_" ++ name) now = true)
    ∧ ((check_service_down cfg st name (some out) now ts eo wo fileOk).1 = true →
        Event.record ⟨ts, "SERVICE", service_message name, "CRITICAL"⟩ fileOk
          ∈ (check_service_down cfg st name (some out) now ts eo wo fileOk).2.2
        ∧ (check_service_down cfg st name (some out) now ts eo wo
            fileOk).2.1.last_alert_time
          = setKey st.last_alert_time ("SERVICE_" ++ name) now) := by
  constructor
  · by_cases h1 : (pyStrip out == "active") = true
    · simp [check_service_down, h1]
    · by_cases h2 : can_send_alert cfg st ("SERVICE_" ++ name) now = true
      · simp [check_service_down, h1, h2]
      · simp [check_service_down, h1, h2]
  · intro h
    by_cases h1 : (pyStrip out == "active") = true
    · simp [check_service_down, h1] at h
    · by_cases h2 : can_send_alert cfg st ("SERVICE_" ++ name) now = true
      · constructor
        · by_cases hc : cfg.console_alerts <;>
            simp [check_service_down, h1, h2, hc, log_alert]
        · simp only [check_service_down, h1, h2, Bool.false_eq_true,
            if_false, if_true]
          rw [webhook_step_keeps_last_alert_time, email_step_keeps_last_alert_time,
            log_alert_keeps_last_alert_time]
      · simp [check_service_down, h1, h2] at h

/-- Witness for C7 (amended) at the concrete input of the claim: probe
output `"unknown"` for service `"mysql"` yields a CRITICAL record of kind
`SERVICE`. -/
theorem check_service_down_spec_witness :
    Event.record ⟨"ts", "SERVICE", service_message "mysql", "CRITICAL"⟩ true
      ∈ (check_service_down cfg0 st0 "mysql" (some "unknown") 0 "ts"
          EmailOutcome.success WebhookOutcome.ok200 true).2.2 := by
  have h := check_service_down_spec cfg0 st0 "mysql" "unknown" 0 "ts"
    EmailOutcome.success WebhookOutcome.ok200 true
  exact (h.2 (h.1.mpr ⟨by decide, rfl⟩)).1

/-- C7 counterexample: at probe output `"unknown"` for `"mysql"` the
recorded history entry has kind `SERVICE`, which is not the
service-qualified kind `SERVICE:mysql` the claim states. -/
theorem check_service_record_kind_cex :
    ((check_service_down cfg0 st0 "mysql" (some "unknown") 0 "ts"
        EmailOutcome.success WebhookOutcome.ok200 true).2.1.alert_history.map
          AlertRecord.type = ["SERVICE"])
    ∧ ("SERVICE" : String) ≠ "SERVICE:mysql" := by
  constructor
  · rfl
  · decide

/-- C8: severity is fixed per alert kind at the call site: a fired CPU,
MEMORY or SWAP check logs its alert record with severity WARNING; a fired
DISK or SERVICE check logs severity CRITICAL; a successful email send logs
an informational EMAIL record with severity INFO. -/
theorem severity_fixed_per_kind (cfg : Config) (st : AlertState)
    (r now : ℚ) (tot : ℤ) (name ts subject out : String) (eo : EmailOutcome)
    (wo : WebhookOutcome) (fileOk : Bool) :
    ((check_cpu cfg st r now ts eo wo fileOk).1 = true →
      Event.record ⟨ts, "CPU", cpu_message r cfg.thresholds.cpu, "WARNING"⟩ fileOk
        ∈ (check_cpu cfg st r now ts eo wo fileOk).2.2)
    ∧ ((check_memory cfg st r now ts eo wo fileOk).1 = true →
      Event.record ⟨ts, "MEMORY", memory_message r cfg.thresholds.memory,
          "WARNING"⟩ fileOk
        ∈ (check_memory cfg st r now ts eo wo fileOk).2.2)
    ∧ ((check_swap cfg st tot r now ts eo wo fileOk).1 = true →
      Event.record ⟨ts, "SWAP", swap_message r cfg.thresholds.swap, "WARNING"⟩ fileOk
        ∈ (check_swap cfg st tot r now ts eo wo fileOk).2.2)
    ∧ ((check_disk cfg st r now ts eo wo fileOk).1 = true →
      Event.record ⟨ts, "DISK", disk_message r cfg.thresholds.disk, "CRITICAL"⟩ fileOk
        ∈ (check_disk cfg st r now ts eo wo fileOk).2.2)
    ∧ ((check_service_down cfg st name (some out) now ts eo wo fileOk).1 = true →
      Event.record ⟨ts, "SERVICE", service_message name, "CRITICAL"⟩ fileOk
        ∈ (check_service_down cfg st name (some out) now ts eo wo fileOk).2.2)
    ∧ ((send_email_alert cfg st subject eo ts fileOk).1 = true →
      Event.record ⟨ts, "EMAIL", "Email envoyé: " ++ subject, "INFO"⟩ fileOk
        ∈ (send_email_alert cfg st subject eo ts fileOk).2.2) := by
  refine ⟨?_, ?_, ?_, ?_, ?_, ?_⟩
  · intro h
    by_cases h1 : r > cfg.thresholds.cpu
    · by_cases h2 : can_send_alert cfg st "CPU" now = true
      · by_cases hc : cfg.console_alerts <;>
          simp [check_cpu, h1, h2, hc, log_alert]
      · simp [check_cpu, h1, h2] at h
    · simp [check_cpu, h1] at h
  · intro h
    by_cases h1 : r > cfg.thresholds.memory
    · by_cases h2 : can_send_alert cfg st "MEMORY" now = true
      · by_cases hc : cfg.console_alerts <;>
          simp [check_memory, h1, h2, hc, log_alert]
      · simp [check_memory, h1, h2] at h
    · simp [check_memory, h1] at h
  · intro h
    by_cases h0 : tot = 0
    · simp [check_swap, h0] at h
    · by_cases h1 : r > cfg.thresholds.swap
      · by_cases h2 : can_send_alert cfg st "SWAP" now = true
        · by_cases hc : cfg.console_alerts <;>
            simp [check_swap, h0, h1, h2, hc, log_alert]
        · simp [check_swap, h0, h1, h2] at h
      · simp [check_swap, h0, h1] at h
  · intro h
    by_cases h1 : r > cfg.thresholds.disk
    · by_cases h2 : can_send_alert cfg st "DISK" now = true
      · by_cases hc : cfg.console_alerts <;>
          simp [check_disk, h1, h2, hc, log_alert]
      · simp [check_disk, h1, h2] at h
    · simp [check_disk, h1] at h
  · intro h
    by_cases h1 : (pyStrip out == "active") = true
    · simp [check_service_down, h1] at h
    · by_cases h2 : can_send_alert cfg st ("SERVICE_" ++ name) now = true
      · by_cases hc : cfg.console_alerts <;>
          simp [check_service_down, h1, h2, hc, log_alert]
      · simp [check_service_down, h1, h2] at h
  · intro h
    by_cases he : cfg.email_enabled = true
    · cases heo : emailTry eo with
      | ok u => simp [send_email_alert, he, heo, log_alert]
      | error e => simp [send_email_alert, he, heo] at h
    · simp [send_email_alert, he] at h

/-- Witness for C8 at a concrete input: a CPU reading of 90 over the
default threshold 80 fires and records a WARNING entry of kind CPU. -/
theorem severity_fixed_per_kind_witness :
    Event.record ⟨"t", "CPU", cpu_message 90 cfg0.thresholds.cpu, "WARNING"⟩ true
      ∈ (check_cpu cfg0 st0 90 0 "t" EmailOutcome.success WebhookOutcome.ok200
          true).2.2 :=
  (severity_fixed_per_kind cfg0 st0 90 0 1 "mysql" "t" "s" "unknown"
    EmailOutcome.success WebhookOutcome.ok200 true).1
    (by norm_num [check_cpu, can_send_alert, cfg0, st0])

/-! Model of the JSON configuration handling of `load_config` /
`create_example_config` (lines 38–124) for the round-trip claim. -/

/-- JSON values as `json.load`/`json.dump` handle them here; objects are
insertion-ordered association lists, as Python dicts are. -/
inductive JVal where
  | jnum (q : ℚ)
  | jstr (s : String)
  | jbool (b : Bool)
  | jarr (xs : List JVal)
  | jobj (fields : List (String × JVal))

/-- Python dict assignment for JSON objects. -/
def setKeyJ (m : List (String × JVal)) (k : String) (v : JVal) :
    List (String × JVal) :=
  match m with
  | [] => [(k, v)]
  | (k0, v0) :: rest =>
      if k0 = k then (k, v) :: rest else (k0, v0) :: setKeyJ rest k v

/-- Python `dict.update`: assign every key of `u` into `d`, in order. -/
def jUpdate (d u : List (String × JVal)) : List (String × JVal) :=
  u.foldl (fun acc kv => setKeyJ acc kv.1 kv.2) d

/-- The `default_config` dict of `load_config` (lines 48–72). -/
def default_config : List (String × JVal) :=
  [("thresholds", JVal.jobj [("cpu", JVal.jnum 80), ("memory", JVal.jnum 85),
      ("disk", JVal.jnum 90), ("swap", JVal.jnum 80)]),
   ("check_interval", JVal.jnum 60),
   ("alert_cooldown", JVal.jnum 300),
   ("email", JVal.jobj [("enabled", JVal.jbool false),
      ("smtp_server", JVal.jstr "smtp.gmail.com"),
      ("smtp_port", JVal.jnum 587),
      ("from", JVal.jstr "alerts@example.com"),
      ("to", JVal.jarr [JVal.jstr "admin@example.com"]),
      ("password", JVal.jstr "")]),
   ("webhook", JVal.jobj [("enabled", JVal.jbool false),
      ("url", JVal.jstr ""), ("method", JVal.jstr "POST")]),
   ("log_file", JVal.jstr "alerts.log"),
   ("console_alerts", JVal.jbool true)]

/-- The `example_config` dict of `create_example_config` (lines 93–117):
identical to the defaults except for the placeholder email password and
webhook URL. -/
def example_config : List (String × JVal) :=
  [("thresholds", JVal.jobj [("cpu", JVal.jnum 80), ("memory", JVal.jnum 85),
      ("disk", JVal.jnum 90), ("swap", JVal.jnum 80)]),
   ("check_interval", JVal.jnum 60),
   ("alert_cooldown", JVal.jnum 300),
   ("email", JVal.jobj [("enabled", JVal.jbool false),
      ("smtp_server", JVal.jstr "smtp.gmail.com"),
      ("smtp_port", JVal.jnum 587),
      ("from", JVal.jstr "alerts@example.com"),
      ("to", JVal.jarr [JVal.jstr "admin@example.com"]),
      ("password", JVal.jstr "votre_mot_de_passe")]),
   ("webhook", JVal.jobj [("enabled", JVal.jbool false),
      ("url", JVal.jstr "https://hooks.slack.com/services/YOUR/WEBHOOK/URL"),
      ("method", JVal.jstr "POST")]),
   ("log_file", JVal.jstr "alerts.log"),
   ("console_alerts", JVal.jbool true)]

/-- The state of the config file as `load_config` observes it. -/
inductive ConfigFile where
  | absent
  | unreadable
  | content (fields : List (String × JVal))

/-- The result of `load_config`: the returned configuration, and whether an
example file was written (only when the file is absent, via
`create_example_config`, whose content is `example_config`). -/
structure LoadResult where
  config : List (String × JVal)
  exampleWritten : Bool

/-- Embedding of `load_config` (lines 38–89): an existing readable file is merged over
the defaults with `dict.update`; a read/parse failure falls back to the
defaults; an absent file writes `example_config` and uses the defaults. -/
def load_config (file : ConfigFile) : LoadResult :=
  match file with
  | ConfigFile.content u => ⟨jUpdate default_config u, false⟩
  | ConfigFile.unreadable => ⟨default_config, false⟩
  | ConfigFile.absent => ⟨default_config, true⟩

/-- C9: when the config file is absent an example file (content
`example_config`) is written and the in-memory defaults are used; re-reading
that generated file through `load_config` yields the same `thresholds`
object (cpu/memory/disk/swap) and the same `check_interval` as the
in-memory defaults of the first run. -/
theorem config_roundtrip :
    (load_config ConfigFile.absent).config = default_config
    ∧ (load_config ConfigFile.absent).exampleWritten = true
    ∧ List.lookup "thresholds"
        (load_config (ConfigFile.content example_config)).config
      = List.lookup "thresholds" default_config
    ∧ List.lookup "check_interval"
        (load_config (ConfigFile.content example_config)).config
      = List.lookup "check_interval" default_config :=
  ⟨rfl, rfl, rfl, rfl⟩
